import Mathlib

/-!
Shallow embedding of the Arduino-Level-2 repository sketches.

The repository holds four firmware sketches:
* `src/unnamed/part_000` and `src/unnamed/part_001` — pulse monitors whose
  `loop` bodies contain a textually identical threshold-crossing detector
  (`part_001` merely factors the pulse/graph broadcasts into helpers); both
  are modelled by `stepPulse`.
* `src/health_monatring/health_monatring.ino` — the same detector plus a
  periodic environmental (BMP280) sampler; modelled by `stepHealth`.
* `src/Ultrasonic-Radar-System-Arduino/sketch.ino` — a servo sweep with an
  ultrasonic distance measurement per step; modelled by `radarLoopIter`.

Modelling conventions:
* `millis()` is modelled as a single per-iteration clock reading `now : ℕ`
  (the value the 32-bit millisecond counter holds during that iteration).
* C++ `unsigned long` subtraction `millis() - last` is the wrap-around
  subtraction `elapsed now last` (mod `2^32`).
* `analogRead` results and the sensor readings of an iteration are inputs of
  the step function.
* WebSocket broadcasts and serial prints are collected as explicit event
  lists; the embedded JSON payload fields become constructor arguments.
* C++ `double` arithmetic in the radar distance formula is embedded as exact
  rational arithmetic (`0.034 = 34/1000`), with truncation-to-`int` as
  `Int.floor` (the value is non-negative).
-/

/-- Wrap-around unsigned 32-bit subtraction: the value of the C++ expression
`now - last` on `unsigned long` operands, for `now, last < 2^32`. -/
def elapsed (now last : ℕ) : ℕ :=
  (now + 2 ^ 32 - last) % 2 ^ 32

/-- JSON events broadcast over the WebSocket, keyed by their `type` field.
`pulse` carries `value` and `bpm`; `graph` carries `value`; `environment`
carries `temp` and `pressure`; `init` (sent by `part_000` on connect)
carries `value` and `bpm`. -/
inductive Msg where
  | pulse (value bpm : ℕ)
  | graph (value : ℕ)
  | environment (temp press : ℤ)
  | init (value bpm : ℕ)
deriving DecidableEq, Repr

/-- Recogniser for `pulse` events. -/
def Msg.isPulse : Msg → Bool
  | .pulse _ _ => true
  | _ => false

/-- Recogniser for `graph` events. -/
def Msg.isGraph : Msg → Bool
  | .graph _ => true
  | _ => false

/-- Recogniser for `environment` events. -/
def Msg.isEnv : Msg → Bool
  | .environment _ _ => true
  | _ => false

/-- State touched by the pulse-detection block shared by all three pulse
sketches: `BPM`, the debounce latch `pulseDetected`, and `lastBeatTime`. -/
structure BeatState where
  BPM : ℕ
  pulseDetected : Bool
  lastBeatTime : ℕ
deriving DecidableEq, Repr

/-- The threshold-crossing detector block, textually identical in
`part_000` lines 61–93, `part_001` lines 84–105 and
`health_monatring.ino` lines 110–130:

if `pulseValue > 600`: on a clear latch, set the latch, recompute `BPM` as
`60000 / (millis() - lastBeatTime)` when `lastBeatTime > 0`, set
`lastBeatTime = millis()`, and broadcast a `pulse` event carrying the sample
and the (possibly updated) `BPM`; on a set latch do nothing. Otherwise clear
the latch and, when `millis() % 50 == 0`, broadcast a `graph` event. -/
def beatStep (v now : ℕ) (b : BeatState) : BeatState × List Msg :=
  if 600 < v then
    if b.pulseDetected then
      (b, [])
    else
      let bpm := if 0 < b.lastBeatTime then 60000 / elapsed now b.lastBeatTime else b.BPM
      (⟨bpm, true, now⟩, [Msg.pulse v bpm])
  else
    ({ b with pulseDetected := false }, if now % 50 = 0 then [Msg.graph v] else [])

/-- Global state of `part_000` / `part_001` (their globals are identical). -/
structure PulseState where
  pulseValue : ℕ
  beat : BeatState
  lastSerialPrintTime : ℕ
deriving DecidableEq, Repr

/-- One iteration of `loop` in `part_000` (lines 45–96) and `part_001`:
read the sample, refresh the 200 ms serial-print timer, then run the
detector block. Returns the new state and the WebSocket broadcasts. -/
def stepPulse (v now : ℕ) (s : PulseState) : PulseState × List Msg :=
  let lsp := if 200 < elapsed now s.lastSerialPrintTime then now else s.lastSerialPrintTime
  let r := beatStep v now s.beat
  (⟨v, r.1, lsp⟩, r.2)

/-- Global state of `health_monatring.ino`: the pulse globals plus
`temperature`, `pressure` and `lastEnvReadTime`. The BMP280 float readings
are abstracted to `ℤ`-valued inputs (their value is never computed on). -/
structure HealthState where
  pulseValue : ℕ
  temperature : ℤ
  pressure : ℤ
  beat : BeatState
  lastSerialPrintTime : ℕ
  lastEnvReadTime : ℕ
deriving DecidableEq, Repr

/-- One iteration of `loop` in `health_monatring.ino` (lines 82–133): read
the sample; when more than 2000 ms have elapsed since `lastEnvReadTime`,
store the fresh temperature/pressure readings, stamp `lastEnvReadTime`, and
broadcast an `environment` event (`sendEnvData`); refresh the serial timer;
then run the detector block. `tempIn`/`pressIn` are what
`bmp.readTemperature()` and `bmp.readPressure()/100.0F` return this
iteration. -/
def stepHealth (v now : ℕ) (tempIn pressIn : ℤ) (s : HealthState) :
    HealthState × List Msg :=
  let fired := 2000 < elapsed now s.lastEnvReadTime
  let temp := if fired then tempIn else s.temperature
  let press := if fired then pressIn else s.pressure
  let envT := if fired then now else s.lastEnvReadTime
  let envMsgs := if fired then [Msg.environment tempIn pressIn] else []
  let lsp := if 200 < elapsed now s.lastSerialPrintTime then now else s.lastSerialPrintTime
  let r := beatStep v now s.beat
  (⟨v, temp, press, r.1, lsp, envT⟩, envMsgs ++ r.2)

/-- Initial values of the globals of `part_000` / `part_001`. -/
def initPulse : PulseState := ⟨0, ⟨0, false, 0⟩, 0⟩

/-- Initial values of the globals of `health_monatring.ino`. -/
def initHealth : HealthState := ⟨0, 0, 0, ⟨0, false, 0⟩, 0, 0⟩

/-- Messages the `WStype_CONNECTED` handler of `part_000` sends to a newly
connected client (lines 274–287): one `init` event with the current sample
and `BPM`. -/
def connectMsgsPart000 (s : PulseState) : List Msg :=
  [Msg.init s.pulseValue s.beat.BPM]

/-- Messages the `WStype_CONNECTED` handler of `part_001` sends on a new
connection (lines 317–324): `sendPulseData()`. -/
def connectMsgsPart001 (s : PulseState) : List Msg :=
  [Msg.pulse s.pulseValue s.beat.BPM]

/-- Messages the `WStype_CONNECTED` handler of `health_monatring.ino` sends
on a new connection (lines 371–379): `sendPulseData()` then `sendEnvData()`. -/
def connectMsgsHealth (s : HealthState) : List Msg :=
  [Msg.pulse s.pulseValue s.beat.BPM, Msg.environment s.temperature s.pressure]

/-- Run a list of `(sample, clock)` iteration inputs through `stepPulse`. -/
def runPulse (l : List (ℕ × ℕ)) (s : PulseState) : PulseState :=
  l.foldl (fun s p => (stepPulse p.1 p.2 s).1) s

/-- Check that every evaluation of `60000 / (millis() - lastBeatTime)`
along a `stepPulse` run has a positive divisor (the division's guard is
`pulseValue > 600 && !pulseDetected && lastBeatTime > 0`). -/
def divisorsOKPulse : List (ℕ × ℕ) → PulseState → Bool
  | [], _ => true
  | (v, now) :: rest, s =>
    (!(600 < v && !s.beat.pulseDetected && 0 < s.beat.lastBeatTime)
        || 0 < elapsed now s.beat.lastBeatTime)
      && divisorsOKPulse rest (stepPulse v now s).1

/-- Check that every evaluation of `60000 / (millis() - lastBeatTime)`
along a `stepHealth` run has a positive divisor. The inputs of one
iteration are `(sample, clock, tempIn, pressIn)`. -/
def divisorsOKHealth : List (ℕ × ℕ × ℤ × ℤ) → HealthState → Bool
  | [], _ => true
  | (v, now, ti, pi) :: rest, s =>
    (!(600 < v && !s.beat.pulseDetected && 0 < s.beat.lastBeatTime)
        || 0 < elapsed now s.beat.lastBeatTime)
      && divisorsOKHealth rest (stepHealth v now ti pi s).1

/-- The radar sketch's `calculateDistance` (sketch.ino lines 11–20):
`distance = duration * 0.034 / 2` with `duration` the echo time in µs and
`distance` an `int`. The `double` literal `0.034` is embedded as the exact
rational `34/1000`; truncation of the non-negative result to `int` is
`Int.floor`. -/
def calculateDistance (duration : ℕ) : ℤ :=
  Int.floor ((duration : ℚ) * (34 / 1000) / 2)

/-- The sequence of angles `loop` writes to the servo in one pass
(sketch.ino lines 29–48): `for (i = 15; i <= 165; i++)` then
`for (i = 165; i >= 15; i--)`. -/
def sweepAngles : List ℕ :=
  List.range' 15 151 ++ (List.range' 15 151).reverse

/-- Closed form of the angle written at sweep step `k` (0-based across the
whole pass of 302 steps). -/
def angleAt (k : ℕ) : ℕ :=
  if k < 151 then 15 + k else 316 - k

/-- One sweep step record: the angle written to the servo and the distance
computed from that step's echo measurement. -/
structure RadarStep where
  angle : ℕ
  distance : ℤ
deriving DecidableEq, Repr

/-- One pass of the radar `loop`, given the echo duration `dur k` that
`pulseIn` returns at the `k`-th measurement: each angle write is followed by
exactly one measurement converted by `calculateDistance`. -/
def radarLoopIter (dur : ℕ → ℕ) : List RadarStep :=
  sweepAngles.enum.map fun p => ⟨p.2, calculateDistance (dur p.1)⟩

/-- Tokens of the serial output: `Serial.print(i)`, `Serial.print(",")`,
`Serial.print(distance)`, `Serial.print(".")`. -/
inductive Token where
  | num (n : ℤ)
  | comma
  | dot
deriving DecidableEq, Repr

/-- Serial tokens one sweep step emits: angle, comma, distance, period. -/
def stepTokens (st : RadarStep) : List Token :=
  [Token.num st.angle, Token.comma, Token.num st.distance, Token.dot]

/-- The full serial trace of one pass of the radar `loop`. -/
def radarSerialTrace (dur : ℕ → ℕ) : List Token :=
  (radarLoopIter dur).flatMap stepTokens

/-- Low-level hardware events of the radar pass, for the sweep invariant:
each servo write followed by its single distance measurement. -/
inductive REvent where
  | servoWrite (angle : ℕ)
  | measure (distance : ℤ)
deriving DecidableEq, Repr

/-- The servo/measurement event trace of one pass of the radar `loop`. -/
def radarEvents (dur : ℕ → ℕ) : List REvent :=
  sweepAngles.enum.flatMap fun p =>
    [REvent.servoWrite p.2, REvent.measure (calculateDistance (dur p.1))]

/-- The distance formula exactly as the spec writes it:
`distance_cm = echo_duration_us * 0.034 / 2`, as a rational. -/
def specDistanceCm (duration : ℕ) : ℚ :=
  (duration : ℚ) * (34 / 1000) / 2

/-- C4. Distance from echo time: the integer the radar sketch stores and
prints is the truncation of `echo_duration_us * 0.034 / 2`: it equals
`(duration * 34) / 2000` in integer arithmetic and lies within one unit
below the exact rational value. -/
theorem c4_distance_from_echo_time (d : ℕ) :
    calculateDistance d = ((d * 34) / 2000 : ℕ) ∧
    (calculateDistance d : ℚ) ≤ specDistanceCm d ∧
    specDistanceCm d - 1 < (calculateDistance d : ℚ) ∧
    0 ≤ calculateDistance d := by
  have hval : (d : ℚ) * (34 / 1000) / 2 = ((d * 34 : ℕ) : ℚ) / ((2000 : ℕ) : ℚ) := by
    push_cast
    ring
  have hfloor : calculateDistance d = ((d * 34) / 2000 : ℕ) := by
    unfold calculateDistance
    rw [hval, Rat.floor_natCast_div_natCast]
    omega
  refine ⟨hfloor, ?_, ?_, ?_⟩
  · exact Int.floor_le _
  · have := Int.sub_one_lt_floor ((d : ℚ) * (34 / 1000) / 2)
    unfold specDistanceCm
    unfold calculateDistance
    push_cast at this
    linarith
  · rw [hfloor]
    positivity

/-- Unsigned 32-bit subtraction agrees with truncated subtraction when the
clock has not wrapped past the stored timestamp. -/
lemma elapsed_eq_sub {now last : ℕ} (h1 : last ≤ now) (h2 : now - last < 2 ^ 32) :
    elapsed now last = now - last := by
  unfold elapsed
  omega

/-- The latch after the detector block is set exactly when the sample is
above the threshold. -/
lemma beatStep_detected (v now : ℕ) (b : BeatState) :
    (beatStep v now b).1.pulseDetected = decide (600 < v) := by
  unfold beatStep
  by_cases h : 600 < v
  · cases hd : b.pulseDetected <;> simp [h, hd]
  · simp [h]

/-- `lastBeatTime` after the detector block: stamped with the clock on a
rising edge, untouched otherwise. -/
lemma beatStep_lastBeatTime (v now : ℕ) (b : BeatState) :
    (beatStep v now b).1.lastBeatTime =
      if 600 < v ∧ b.pulseDetected = false then now else b.lastBeatTime := by
  unfold beatStep
  by_cases h : 600 < v
  · cases hd : b.pulseDetected <;> simp [h, hd]
  · simp [h]

/-- `BPM` after the detector block: recomputed from the elapsed time only on
a rising edge with a previous beat recorded, untouched otherwise. -/
lemma beatStep_BPM (v now : ℕ) (b : BeatState) :
    (beatStep v now b).1.BPM =
      if 600 < v ∧ b.pulseDetected = false ∧ 0 < b.lastBeatTime then
        60000 / elapsed now b.lastBeatTime
      else b.BPM := by
  unfold beatStep
  by_cases h : 600 < v
  · cases hd : b.pulseDetected
    · by_cases hl : 0 < b.lastBeatTime <;> simp [h, hd, hl]
    · simp [h, hd]
  · simp [h]

/-- Number of `pulse` events the detector block broadcasts: one on a rising
edge, none otherwise. -/
lemma beatStep_countP_pulse (v now : ℕ) (b : BeatState) :
    (beatStep v now b).2.countP Msg.isPulse =
      if 600 < v ∧ b.pulseDetected = false then 1 else 0 := by
  unfold beatStep
  by_cases h : 600 < v
  · cases hd : b.pulseDetected <;> simp [h, hd, Msg.isPulse]
  · by_cases h50 : now % 50 = 0 <;> simp [h, h50, Msg.isPulse, Msg.isGraph]

/-- Number of `graph` events the detector block broadcasts: one when the
sample is not above threshold and the clock is a multiple of 50 ms. -/
lemma beatStep_countP_graph (v now : ℕ) (b : BeatState) :
    (beatStep v now b).2.countP Msg.isGraph =
      if ¬ 600 < v ∧ now % 50 = 0 then 1 else 0 := by
  unfold beatStep
  by_cases h : 600 < v
  · cases hd : b.pulseDetected <;> simp [h, hd, Msg.isGraph, Msg.isPulse]
  · by_cases h50 : now % 50 = 0 <;> simp [h, h50, Msg.isGraph]

/-- The detector block never broadcasts `environment` events. -/
lemma beatStep_countP_env (v now : ℕ) (b : BeatState) :
    (beatStep v now b).2.countP Msg.isEnv = 0 := by
  unfold beatStep
  by_cases h : 600 < v
  · cases hd : b.pulseDetected <;> simp [h, hd, Msg.isEnv]
  · by_cases h50 : now % 50 = 0 <;> simp [h, h50, Msg.isEnv]

/-- The beat state of `stepPulse` is the detector block's output. -/
lemma stepPulse_beat (v now : ℕ) (s : PulseState) :
    (stepPulse v now s).1.beat = (beatStep v now s.beat).1 := rfl

/-- The broadcasts of `stepPulse` are the detector block's broadcasts. -/
lemma stepPulse_msgs (v now : ℕ) (s : PulseState) :
    (stepPulse v now s).2 = (beatStep v now s.beat).2 := rfl

/-- The beat state of `stepHealth` is the detector block's output. -/
lemma stepHealth_beat (v now : ℕ) (ti pi : ℤ) (s : HealthState) :
    (stepHealth v now ti pi s).1.beat = (beatStep v now s.beat).1 := rfl

/-- The broadcasts of `stepHealth`: the environmental event (when the 2000 ms
timer fired) followed by the detector block's broadcasts. -/
lemma stepHealth_msgs (v now : ℕ) (ti pi : ℤ) (s : HealthState) :
    (stepHealth v now ti pi s).2 =
      (if 2000 < elapsed now s.lastEnvReadTime then [Msg.environment ti pi] else [])
        ++ (beatStep v now s.beat).2 := by
  unfold stepHealth
  by_cases h : 2000 < elapsed now s.lastEnvReadTime <;> simp [h]

/-- C1. Peak-to-BPM conversion: on a rising edge (sample above threshold,
latch clear) with a previous beat recorded (`lastBeatTime > 0`), both pulse
sketches and the health sketch set `BPM = 60000 / (now - lastBeatTime)` and
then stamp `lastBeatTime = now`. The subtraction hypotheses say the 32-bit
millisecond counter has not wrapped past the stored beat time. -/
theorem c1_peak_to_bpm (s : PulseState) (t : HealthState) (v now : ℕ)
    (tempIn pressIn : ℤ) (hv : 600 < v)
    (hs : s.beat.pulseDetected = false) (hsl : 0 < s.beat.lastBeatTime)
    (hsle : s.beat.lastBeatTime ≤ now) (hsw : now - s.beat.lastBeatTime < 2 ^ 32)
    (ht : t.beat.pulseDetected = false) (htl : 0 < t.beat.lastBeatTime)
    (htle : t.beat.lastBeatTime ≤ now) (htw : now - t.beat.lastBeatTime < 2 ^ 32) :
    ((stepPulse v now s).1.beat.BPM = 60000 / (now - s.beat.lastBeatTime) ∧
      (stepPulse v now s).1.beat.lastBeatTime = now) ∧
    ((stepHealth v now tempIn pressIn t).1.beat.BPM = 60000 / (now - t.beat.lastBeatTime) ∧
      (stepHealth v now tempIn pressIn t).1.beat.lastBeatTime = now) := by
  refine ⟨⟨?_, ?_⟩, ?_, ?_⟩
  · rw [stepPulse_beat, beatStep_BPM, if_pos ⟨hv, hs, hsl⟩, elapsed_eq_sub hsle hsw]
  · rw [stepPulse_beat, beatStep_lastBeatTime, if_pos ⟨hv, hs⟩]
  · rw [stepHealth_beat, beatStep_BPM, if_pos ⟨hv, ht, htl⟩, elapsed_eq_sub htle htw]
  · rw [stepHealth_beat, beatStep_lastBeatTime, if_pos ⟨hv, ht⟩]

/-- Witness for C1 at a concrete state and input. -/
theorem c1_peak_to_bpm_witness :
    ((stepPulse 700 600 ⟨0, ⟨0, false, 100⟩, 0⟩).1.beat.BPM = 60000 / (600 - 100) ∧
      (stepPulse 700 600 ⟨0, ⟨0, false, 100⟩, 0⟩).1.beat.lastBeatTime = 600) ∧
    ((stepHealth 700 600 25 1013 ⟨0, 0, 0, ⟨0, false, 100⟩, 0, 0⟩).1.beat.BPM
        = 60000 / (600 - 100) ∧
      (stepHealth 700 600 25 1013 ⟨0, 0, 0, ⟨0, false, 100⟩, 0, 0⟩).1.beat.lastBeatTime
        = 600) :=
  c1_peak_to_bpm ⟨0, ⟨0, false, 100⟩, 0⟩ ⟨0, 0, 0, ⟨0, false, 100⟩, 0, 0⟩ 700 600 25 1013
    (by decide) rfl (by decide) (by decide) (by decide)
    rfl (by decide) (by decide) (by decide)

/-- C2. First-beat edge case: on a rising edge with `lastBeatTime == 0`,
`BPM` keeps its prior value but `lastBeatTime` is stamped with the current
time; consequently (the post-boot clock being positive) after an intervening
below-threshold sample clears the latch, the very next rising edge does
compute `BPM = 60000 / (millis() - lastBeatTime)`. Shown for both the pulse
sketches and the health sketch. -/
theorem c2_first_beat (s : PulseState) (t : HealthState)
    (v now v2 now2 v3 now3 : ℕ) (tempIn pressIn : ℤ)
    (hv : 600 < v) (hs : s.beat.pulseDetected = false) (hs0 : s.beat.lastBeatTime = 0)
    (ht : t.beat.pulseDetected = false) (ht0 : t.beat.lastBeatTime = 0)
    (hnow : 0 < now) (hv2 : ¬ 600 < v2) (hv3 : 600 < v3) :
    ((stepPulse v now s).1.beat.BPM = s.beat.BPM ∧
      (stepPulse v now s).1.beat.lastBeatTime = now ∧
      (stepPulse v3 now3 (stepPulse v2 now2 (stepPulse v now s).1).1).1.beat.BPM
        = 60000 / elapsed now3 now) ∧
    ((stepHealth v now tempIn pressIn t).1.beat.BPM = t.beat.BPM ∧
      (stepHealth v now tempIn pressIn t).1.beat.lastBeatTime = now ∧
      (stepHealth v3 now3 tempIn pressIn
          (stepHealth v2 now2 tempIn pressIn
            (stepHealth v now tempIn pressIn t).1).1).1.beat.BPM
        = 60000 / elapsed now3 now) := by
  have hns : ¬ 0 < s.beat.lastBeatTime := by omega
  have hnt : ¬ 0 < t.beat.lastBeatTime := by omega
  constructor
  · refine ⟨?_, ?_, ?_⟩
    · rw [stepPulse_beat, beatStep_BPM, if_neg (by tauto)]
    · rw [stepPulse_beat, beatStep_lastBeatTime, if_pos ⟨hv, hs⟩]
    · have h1d : (stepPulse v now s).1.beat.pulseDetected = true := by
        rw [stepPulse_beat, beatStep_detected, decide_eq_true_eq]
        exact hv
      have h1t : (stepPulse v now s).1.beat.lastBeatTime = now := by
        rw [stepPulse_beat, beatStep_lastBeatTime, if_pos ⟨hv, hs⟩]
      have h2d : (stepPulse v2 now2 (stepPulse v now s).1).1.beat.pulseDetected = false := by
        rw [stepPulse_beat, beatStep_detected, decide_eq_false_iff_not]
        exact hv2
      have h2t : (stepPulse v2 now2 (stepPulse v now s).1).1.beat.lastBeatTime = now := by
        rw [stepPulse_beat, beatStep_lastBeatTime, if_neg (by tauto), h1t]
      rw [stepPulse_beat, beatStep_BPM, if_pos ⟨hv3, h2d, by omega⟩, h2t]
  · refine ⟨?_, ?_, ?_⟩
    · rw [stepHealth_beat, beatStep_BPM, if_neg (by tauto)]
    · rw [stepHealth_beat, beatStep_lastBeatTime, if_pos ⟨hv, ht⟩]
    · have h1d : (stepHealth v now tempIn pressIn t).1.beat.pulseDetected = true := by
        rw [stepHealth_beat, beatStep_detected, decide_eq_true_eq]
        exact hv
      have h1t : (stepHealth v now tempIn pressIn t).1.beat.lastBeatTime = now := by
        rw [stepHealth_beat, beatStep_lastBeatTime, if_pos ⟨hv, ht⟩]
      have h2d : (stepHealth v2 now2 tempIn pressIn
          (stepHealth v now tempIn pressIn t).1).1.beat.pulseDetected = false := by
        rw [stepHealth_beat, beatStep_detected, decide_eq_false_iff_not]
        exact hv2
      have h2t : (stepHealth v2 now2 tempIn pressIn
          (stepHealth v now tempIn pressIn t).1).1.beat.lastBeatTime = now := by
        rw [stepHealth_beat, beatStep_lastBeatTime, if_neg (by tauto), h1t]
      rw [stepHealth_beat, beatStep_BPM, if_pos ⟨hv3, h2d, by omega⟩, h2t]

/-- Witness for C2 at a concrete state and inputs. -/
theorem c2_first_beat_witness :
    ((stepPulse 700 100 initPulse).1.beat.BPM = 0 ∧
      (stepPulse 700 100 initPulse).1.beat.lastBeatTime = 100 ∧
      (stepPulse 700 600 (stepPulse 100 150 (stepPulse 700 100 initPulse).1).1).1.beat.BPM
        = 60000 / elapsed 600 100) ∧
    ((stepHealth 700 100 25 1013 initHealth).1.beat.BPM = 0 ∧
      (stepHealth 700 100 25 1013 initHealth).1.beat.lastBeatTime = 100 ∧
      (stepHealth 700 600 25 1013
          (stepHealth 100 150 25 1013
            (stepHealth 700 100 25 1013 initHealth).1).1).1.beat.BPM
        = 60000 / elapsed 600 100) :=
  c2_first_beat initPulse initHealth 700 100 100 150 700 600 25 1013
    (by decide) rfl rfl rfl rfl (by decide) (by decide) (by decide)

/-- C3. Latch reset and debounce, as a full characterisation of the detector
state after one iteration of each sketch: the latch ends set exactly when the
sample is above threshold (so a below-threshold sample resets it), and while
the latch was already set `BPM`, `lastBeatTime` and the `pulse` broadcast are
all suppressed (the `if`-conditions below require a clear latch). -/
theorem c3_latch_reset_debounce (s : PulseState) (t : HealthState) (v now : ℕ)
    (tempIn pressIn : ℤ) :
    ((stepPulse v now s).1.beat.pulseDetected = decide (600 < v)) ∧
    ((stepHealth v now tempIn pressIn t).1.beat.pulseDetected = decide (600 < v)) ∧
    ((stepPulse v now s).1.beat.lastBeatTime =
      if 600 < v ∧ s.beat.pulseDetected = false then now else s.beat.lastBeatTime) ∧
    ((stepHealth v now tempIn pressIn t).1.beat.lastBeatTime =
      if 600 < v ∧ t.beat.pulseDetected = false then now else t.beat.lastBeatTime) ∧
    ((stepPulse v now s).1.beat.BPM =
      if 600 < v ∧ s.beat.pulseDetected = false ∧ 0 < s.beat.lastBeatTime then
        60000 / elapsed now s.beat.lastBeatTime
      else s.beat.BPM) ∧
    ((stepHealth v now tempIn pressIn t).1.beat.BPM =
      if 600 < v ∧ t.beat.pulseDetected = false ∧ 0 < t.beat.lastBeatTime then
        60000 / elapsed now t.beat.lastBeatTime
      else t.beat.BPM) ∧
    ((stepPulse v now s).2.countP Msg.isPulse =
      if 600 < v ∧ s.beat.pulseDetected = false then 1 else 0) ∧
    ((stepHealth v now tempIn pressIn t).2.countP Msg.isPulse =
      if 600 < v ∧ t.beat.pulseDetected = false then 1 else 0) := by
  refine ⟨?_, ?_, ?_, ?_, ?_, ?_, ?_, ?_⟩
  · rw [stepPulse_beat, beatStep_detected]
  · rw [stepHealth_beat, beatStep_detected]
  · rw [stepPulse_beat, beatStep_lastBeatTime]
  · rw [stepHealth_beat, beatStep_lastBeatTime]
  · rw [stepPulse_beat, beatStep_BPM]
  · rw [stepHealth_beat, beatStep_BPM]
  · rw [stepPulse_msgs, beatStep_countP_pulse]
  · rw [stepHealth_msgs, List.countP_append, beatStep_countP_pulse]
    by_cases h : 2000 < elapsed now t.lastEnvReadTime <;> simp [h, Msg.isPulse]

/-- C5. Broadcast discipline: one `pulse` event is broadcast exactly on a
rising edge (sample above threshold with the latch clear), and one `graph`
event is broadcast exactly when the sample is not above threshold and the
millisecond clock is an exact multiple of 50; shown for both the pulse
sketches and the health sketch. -/
theorem c5_broadcast_discipline (s : PulseState) (t : HealthState) (v now : ℕ)
    (tempIn pressIn : ℤ) :
    ((stepPulse v now s).2.countP Msg.isPulse =
      if 600 < v ∧ s.beat.pulseDetected = false then 1 else 0) ∧
    ((stepPulse v now s).2.countP Msg.isGraph =
      if ¬ 600 < v ∧ now % 50 = 0 then 1 else 0) ∧
    ((stepHealth v now tempIn pressIn t).2.countP Msg.isPulse =
      if 600 < v ∧ t.beat.pulseDetected = false then 1 else 0) ∧
    ((stepHealth v now tempIn pressIn t).2.countP Msg.isGraph =
      if ¬ 600 < v ∧ now % 50 = 0 then 1 else 0) := by
  refine ⟨?_, ?_, ?_, ?_⟩
  · rw [stepPulse_msgs, beatStep_countP_pulse]
  · rw [stepPulse_msgs, beatStep_countP_graph]
  · rw [stepHealth_msgs, List.countP_append, beatStep_countP_pulse]
    by_cases h : 2000 < elapsed now t.lastEnvReadTime <;> simp [h, Msg.isPulse]
  · rw [stepHealth_msgs, List.countP_append, beatStep_countP_graph]
    by_cases h : 2000 < elapsed now t.lastEnvReadTime <;> simp [h, Msg.isGraph]

/-- C7. Environmental sampler frame property: `temperature` and `pressure`
change only when more than 2000 ms have elapsed since `lastEnvReadTime`, in
which case they take the fresh readings, the timer is restamped and exactly
one `environment` event is broadcast; on every other iteration all three are
unchanged and no `environment` event is sent. -/
theorem c7_env_frame (t : HealthState) (v now : ℕ) (tempIn pressIn : ℤ) :
    ((stepHealth v now tempIn pressIn t).1.temperature =
      if 2000 < elapsed now t.lastEnvReadTime then tempIn else t.temperature) ∧
    ((stepHealth v now tempIn pressIn t).1.pressure =
      if 2000 < elapsed now t.lastEnvReadTime then pressIn else t.pressure) ∧
    ((stepHealth v now tempIn pressIn t).1.lastEnvReadTime =
      if 2000 < elapsed now t.lastEnvReadTime then now else t.lastEnvReadTime) ∧
    ((stepHealth v now tempIn pressIn t).2.countP Msg.isEnv =
      if 2000 < elapsed now t.lastEnvReadTime then 1 else 0) := by
  refine ⟨rfl, rfl, rfl, ?_⟩
  rw [stepHealth_msgs, List.countP_append, beatStep_countP_env]
  by_cases h : 2000 < elapsed now t.lastEnvReadTime <;> simp [h, Msg.isEnv]

/-- C10. Initial snapshot on connect: the `WStype_CONNECTED` handler of each
sketch immediately sends the current pulse value and `BPM` (and, in the
health sketch, the current temperature and pressure) to the new client. -/
theorem c10_connect_snapshot (s u : PulseState) (t : HealthState) :
    Msg.init s.pulseValue s.beat.BPM ∈ connectMsgsPart000 s ∧
    Msg.pulse u.pulseValue u.beat.BPM ∈ connectMsgsPart001 u ∧
    Msg.pulse t.pulseValue t.beat.BPM ∈ connectMsgsHealth t ∧
    Msg.environment t.temperature t.pressure ∈ connectMsgsHealth t := by
  refine ⟨?_, ?_, ?_, ?_⟩ <;>
    simp [connectMsgsPart000, connectMsgsPart001, connectMsgsHealth]

/-- Along any run of `stepPulse` whose per-iteration clock readings strictly
increase and stay below `2^32`, and from a state whose stored beat time is
either the `0` sentinel or strictly older than every upcoming reading, every
evaluated BPM divisor is positive. -/
lemma divisorsOKPulse_of_mono :
    ∀ (l : List (ℕ × ℕ)) (s : PulseState),
      List.Pairwise (· < ·) (l.map Prod.snd) →
      (∀ p ∈ l, p.2 < 2 ^ 32) →
      s.beat.lastBeatTime < 2 ^ 32 →
      (∀ p ∈ l, s.beat.lastBeatTime = 0 ∨ s.beat.lastBeatTime < p.2) →
      divisorsOKPulse l s = true
  | [], _ => by
    intro _ _ _ _
    rfl
  | (v, now) :: rest, s => by
    intro hpw hbound hlb hinv
    have hnow : now < 2 ^ 32 := hbound (v, now) (List.mem_cons_self _ _)
    have hpw2 : List.Pairwise (· < ·) (now :: rest.map Prod.snd) := by simpa using hpw
    have hpw' := List.pairwise_cons.1 hpw2
    unfold divisorsOKPulse
    rw [Bool.and_eq_true]
    constructor
    · by_cases h1 : 600 < v
      · by_cases h2 : s.beat.pulseDetected
        · simp [h2]
        · by_cases h3 : 0 < s.beat.lastBeatTime
          · have hlt : s.beat.lastBeatTime < now := by
              rcases hinv (v, now) (List.mem_cons_self _ _) with h0 | h
              · omega
              · exact h
            have hpos : 0 < elapsed now s.beat.lastBeatTime := by
              rw [elapsed_eq_sub (le_of_lt hlt) (by omega)]
              omega
            simp [h1, h2, h3, hpos]
          · simp [h3]
      · simp [h1]
    · apply divisorsOKPulse_of_mono rest (stepPulse v now s).1
      · exact hpw'.2
      · intro p hp
        exact hbound p (List.mem_cons_of_mem _ hp)
      · rw [stepPulse_beat, beatStep_lastBeatTime]
        by_cases h : 600 < v ∧ s.beat.pulseDetected = false <;> simp [h] <;> omega
      · intro p hp
        rw [stepPulse_beat, beatStep_lastBeatTime]
        by_cases h : 600 < v ∧ s.beat.pulseDetected = false
        · rw [if_pos h]
          by_cases h0 : now = 0
          · exact Or.inl h0
          · exact Or.inr (hpw'.1 p.2 (List.mem_map_of_mem Prod.snd hp))
        · rw [if_neg h]
          exact hinv p (List.mem_cons_of_mem _ hp)

/-- Health-sketch analogue of `divisorsOKPulse_of_mono`. -/
lemma divisorsOKHealth_of_mono :
    ∀ (l : List (ℕ × ℕ × ℤ × ℤ)) (s : HealthState),
      List.Pairwise (· < ·) (l.map fun q => q.2.1) →
      (∀ q ∈ l, q.2.1 < 2 ^ 32) →
      s.beat.lastBeatTime < 2 ^ 32 →
      (∀ q ∈ l, s.beat.lastBeatTime = 0 ∨ s.beat.lastBeatTime < q.2.1) →
      divisorsOKHealth l s = true
  | [], _ => by
    intro _ _ _ _
    rfl
  | (v, now, ti, pin) :: rest, s => by
    intro hpw hbound hlb hinv
    have hnow : now < 2 ^ 32 := hbound (v, now, ti, pin) (List.mem_cons_self _ _)
    have hpw2 : List.Pairwise (· < ·) (now :: rest.map fun q => q.2.1) := by simpa using hpw
    have hpw' := List.pairwise_cons.1 hpw2
    unfold divisorsOKHealth
    rw [Bool.and_eq_true]
    constructor
    · by_cases h1 : 600 < v
      · by_cases h2 : s.beat.pulseDetected
        · simp [h2]
        · by_cases h3 : 0 < s.beat.lastBeatTime
          · have hlt : s.beat.lastBeatTime < now := by
              rcases hinv (v, now, ti, pin) (List.mem_cons_self _ _) with h0 | h
              · omega
              · exact h
            have hpos : 0 < elapsed now s.beat.lastBeatTime := by
              rw [elapsed_eq_sub (le_of_lt hlt) (by omega)]
              omega
            simp [h1, h2, h3, hpos]
          · simp [h3]
      · simp [h1]
    · apply divisorsOKHealth_of_mono rest (stepHealth v now ti pin s).1
      · exact hpw'.2
      · intro q hq
        exact hbound q (List.mem_cons_of_mem _ hq)
      · rw [stepHealth_beat, beatStep_lastBeatTime]
        by_cases h : 600 < v ∧ s.beat.pulseDetected = false <;> simp [h] <;> omega
      · intro q hq
        rw [stepHealth_beat, beatStep_lastBeatTime]
        by_cases h : 600 < v ∧ s.beat.pulseDetected = false
        · rw [if_pos h]
          by_cases h0 : now = 0
          · exact Or.inl h0
          · exact Or.inr (hpw'.1 q.2.1 (List.mem_map_of_mem _ hq))
        · rw [if_neg h]
          exact hinv q (List.mem_cons_of_mem _ hq)

/-- C8. Division safety: starting from the sketches' initial globals
(`lastBeatTime = 0`, latch clear), along any run whose millisecond readings
strictly advance from one iteration to the next (and stay below the 32-bit
wrap), every evaluation of the unguarded expression
`60000 / (millis() - lastBeatTime)` has a positive divisor — the guard
`lastBeatTime > 0` plus the latch/reset discipline force at least one full
earlier iteration between stamping `lastBeatTime` and the next division, so
the divisor is the (positive) time advance since the stamped beat. -/
theorem c8_division_safety (lp : List (ℕ × ℕ)) (lh : List (ℕ × ℕ × ℤ × ℤ))
    (hp : List.Pairwise (· < ·) (lp.map Prod.snd))
    (hpb : ∀ p ∈ lp, p.2 < 2 ^ 32)
    (hh : List.Pairwise (· < ·) (lh.map fun q => q.2.1))
    (hhb : ∀ q ∈ lh, q.2.1 < 2 ^ 32) :
    divisorsOKPulse lp initPulse = true ∧ divisorsOKHealth lh initHealth = true := by
  constructor
  · exact divisorsOKPulse_of_mono lp initPulse hp hpb (by decide) fun p _ => Or.inl rfl
  · exact divisorsOKHealth_of_mono lh initHealth hh hhb (by decide) fun q _ => Or.inl rfl

/-- Witness for C8 on concrete runs containing two beats each. -/
theorem c8_division_safety_witness :
    divisorsOKPulse [(700, 10), (100, 25), (700, 40)] initPulse = true ∧
    divisorsOKHealth [(700, 10, 25, 1013), (100, 25, 25, 1013), (700, 40, 25, 1013)]
        initHealth = true :=
  c8_division_safety [(700, 10), (100, 25), (700, 40)]
    [(700, 10, 25, 1013), (100, 25, 25, 1013), (700, 40, 25, 1013)]
    (by decide) (by decide) (by decide) (by decide)

set_option maxRecDepth 8000

/-- The two `for` loops of the radar `loop` write the angle `angleAt k` at
overall step `k`. -/
lemma sweepAngles_eq : sweepAngles = (List.range 302).map angleAt := by decide

/-- One pass performs 302 sweep steps. -/
lemma sweepAngles_length : sweepAngles.length = 302 := by decide

/-- Element lookup in the sweep-angle sequence. -/
lemma sweepAngles_getElem? (k : ℕ) (hk : k < 302) :
    sweepAngles[k]? = some (angleAt k) := by
  rw [sweepAngles_eq, List.getElem?_map, List.getElem?_range hk]
  rfl

/-- Element lookup in one radar pass: step `k` writes `angleAt k` and stores
the distance computed from the `k`-th echo measurement. -/
lemma radarLoopIter_getElem? (dur : ℕ → ℕ) (k : ℕ) (hk : k < 302) :
    (radarLoopIter dur)[k]? = some ⟨angleAt k, calculateDistance (dur k)⟩ := by
  unfold radarLoopIter
  rw [List.getElem?_map, List.getElem?_enum, sweepAngles_getElem? k hk]
  rfl

/-- Dropping `4 * k` tokens of the serial trace lands on the `k`-th step's
four tokens. -/
lemma flatMap_stepTokens_drop :
    ∀ (l : List RadarStep) (k : ℕ) (st : RadarStep), l[k]? = some st →
      ((l.flatMap stepTokens).drop (4 * k)).take 4 = stepTokens st
  | [], k, st => by simp
  | a :: l, 0, st => by
    intro h
    simp only [List.getElem?_cons_zero, Option.some.injEq] at h
    subst h
    rw [List.flatMap_cons, Nat.mul_zero, List.drop_zero,
      show (4 : ℕ) = (stepTokens a).length from rfl, List.take_left]
  | a :: l, k + 1, st => by
    intro h
    have hlen : (stepTokens a).length = 4 := rfl
    rw [List.flatMap_cons,
      show 4 * (k + 1) = (stepTokens a).length + 4 * k by rw [hlen]; omega,
      List.drop_append]
    exact flatMap_stepTokens_drop l k st (by simpa using h)

/-- Indexing a trace made of `[write, measure]` pairs. -/
lemma flatMap_pair_getElem? (f g : ℕ × ℕ → REvent) :
    ∀ (l : List (ℕ × ℕ)) (k : ℕ) (p : ℕ × ℕ), l[k]? = some p →
      ((l.flatMap fun q => [f q, g q])[2 * k]? = some (f p) ∧
        (l.flatMap fun q => [f q, g q])[2 * k + 1]? = some (g p))
  | [], k, p => by simp
  | a :: l, 0, p => by
    intro h
    simp only [List.getElem?_cons_zero, Option.some.injEq] at h
    subst h
    refine ⟨?_, ?_⟩ <;> simp [List.flatMap_cons]
  | a :: l, k + 1, p => by
    intro h
    have h2 : ((a :: l).flatMap fun q => [f q, g q])
        = [f a, g a] ++ l.flatMap fun q => [f q, g q] := by
      simp
    have hlen : ([f a, g a] : List REvent).length = 2 := rfl
    constructor
    · rw [h2, List.getElem?_append_right (by rw [hlen]; omega), hlen,
        show 2 * (k + 1) - 2 = 2 * k by omega]
      exact (flatMap_pair_getElem? f g l k p (by simpa using h)).1
    · rw [h2, List.getElem?_append_right (by rw [hlen]; omega), hlen,
        show 2 * (k + 1) + 1 - 2 = 2 * k + 1 by omega]
      exact (flatMap_pair_getElem? f g l k p (by simpa using h)).2

/-- Bool-level check that a list ascends in steps of one. -/
def ascChain : List ℕ → Bool
  | a :: b :: t => (b == a + 1) && ascChain (b :: t)
  | _ => true

/-- Bool-level check that a list descends in steps of one. -/
def descChain : List ℕ → Bool
  | a :: b :: t => (a == b + 1) && descChain (b :: t)
  | _ => true

/-- A list passing `ascChain` ascends by one at every adjacent pair. -/
lemma chain'_of_ascChain :
    ∀ l : List ℕ, ascChain l = true → List.Chain' (fun a b => b = a + 1) l
  | [], _ => by simp
  | [a], _ => by simp
  | a :: b :: t, h => by
    rw [List.chain'_cons]
    rw [ascChain, Bool.and_eq_true, beq_iff_eq] at h
    exact ⟨h.1, chain'_of_ascChain (b :: t) h.2⟩

/-- A list passing `descChain` descends by one at every adjacent pair. -/
lemma chain'_of_descChain :
    ∀ l : List ℕ, descChain l = true → List.Chain' (fun a b => a = b + 1) l
  | [], _ => by simp
  | [a], _ => by simp
  | a :: b :: t, h => by
    rw [List.chain'_cons]
    rw [descChain, Bool.and_eq_true, beq_iff_eq] at h
    exact ⟨h.1, chain'_of_descChain (b :: t) h.2⟩

/-- C6. Radar output format: one pass performs 302 steps; step `k` pairs the
servo angle `angleAt k` with the distance computed from that step's echo,
and the serial trace prints, for each step, the angle, a comma, the
distance, then a period. -/
theorem c6_radar_output_format (dur : ℕ → ℕ) (k : ℕ) (hk : k < 302) :
    (radarLoopIter dur).length = 302 ∧
    (radarLoopIter dur)[k]? = some ⟨angleAt k, calculateDistance (dur k)⟩ ∧
    ((radarSerialTrace dur).drop (4 * k)).take 4 =
      [Token.num (angleAt k), Token.comma,
        Token.num (calculateDistance (dur k)), Token.dot] := by
  refine ⟨?_, radarLoopIter_getElem? dur k hk, ?_⟩
  · unfold radarLoopIter
    rw [List.length_map, List.enum_length, sweepAngles_length]
  · exact flatMap_stepTokens_drop (radarLoopIter dur) k _ (radarLoopIter_getElem? dur k hk)

/-- Witness for C6 at step 0 of a pass with constant 1000 µs echoes. -/
theorem c6_radar_output_format_witness :
    (radarLoopIter fun _ => 1000).length = 302 ∧
    (radarLoopIter fun _ => 1000)[0]? = some ⟨angleAt 0, calculateDistance 1000⟩ ∧
    ((radarSerialTrace fun _ => 1000).drop (4 * 0)).take 4 =
      [Token.num (angleAt 0), Token.comma,
        Token.num (calculateDistance 1000), Token.dot] :=
  c6_radar_output_format (fun _ => 1000) 0 (by decide)

/-- C9. Servo sweep invariant: every angle written lies in `[15, 165]`; the
first 151 steps ascend by one from 15 to 165 and the remaining 151 steps
descend by one from 165 back to 15; and in the event trace the servo write
at every step `k` is immediately followed by exactly one distance
measurement. -/
theorem c9_servo_sweep_invariant (dur : ℕ → ℕ) (k : ℕ) (hk : k < 302) :
    (∀ a, REvent.servoWrite a ∈ radarEvents dur → 15 ≤ a ∧ a ≤ 165) ∧
    List.Chain' (fun a b => b = a + 1) (sweepAngles.take 151) ∧
    List.Chain' (fun a b => a = b + 1) (sweepAngles.drop 151) ∧
    sweepAngles.head? = some 15 ∧
    (sweepAngles.take 151).getLast? = some 165 ∧
    (sweepAngles.drop 151).head? = some 165 ∧
    sweepAngles.getLast? = some 15 ∧
    (radarEvents dur)[2 * k]? = some (REvent.servoWrite (angleAt k)) ∧
    (radarEvents dur)[2 * k + 1]? = some (REvent.measure (calculateDistance (dur k))) := by
  have hrange : ∀ a ∈ sweepAngles, 15 ≤ a ∧ a ≤ 165 := by decide
  have henum : sweepAngles.enum[k]? = some (k, angleAt k) := by
    rw [List.getElem?_enum, sweepAngles_getElem? k hk]
    rfl
  have hpair := flatMap_pair_getElem?
    (fun q => REvent.servoWrite q.2)
    (fun q => REvent.measure (calculateDistance (dur q.1)))
    sweepAngles.enum k (k, angleAt k) henum
  refine ⟨?_, chain'_of_ascChain _ (by decide), chain'_of_descChain _ (by decide),
    by decide, by decide, by decide, by decide, hpair.1, hpair.2⟩
  intro a ha
  unfold radarEvents at ha
  rw [List.mem_flatMap] at ha
  obtain ⟨p, hp, hmem⟩ := ha
  have hpa : a = p.2 := by simpa using hmem
  have hm : p.2 ∈ sweepAngles := by
    obtain ⟨i, x⟩ := p
    exact List.getElem?_mem (List.mk_mem_enum_iff_getElem?.1 hp)
  rw [hpa]
  exact hrange _ hm

/-- Witness for C9 at step 0 of a pass with constant 1000 µs echoes. -/
theorem c9_servo_sweep_invariant_witness :
    (∀ a, REvent.servoWrite a ∈ radarEvents (fun _ => 1000) → 15 ≤ a ∧ a ≤ 165) ∧
    List.Chain' (fun a b => b = a + 1) (sweepAngles.take 151) ∧
    List.Chain' (fun a b => a = b + 1) (sweepAngles.drop 151) ∧
    sweepAngles.head? = some 15 ∧
    (sweepAngles.take 151).getLast? = some 165 ∧
    (sweepAngles.drop 151).head? = some 165 ∧
    sweepAngles.getLast? = some 15 ∧
    (radarEvents fun _ => 1000)[2 * 0]? = some (REvent.servoWrite (angleAt 0)) ∧
    (radarEvents fun _ => 1000)[2 * 0 + 1]?
      = some (REvent.measure (calculateDistance 1000)) :=
  c9_servo_sweep_invariant (fun _ => 1000) 0 (by decide)
